import Mathlib

/-!
# Verification of the Pong simulation core

Shallow embedding of the deterministic simulation core of the Pong
repository.  The repository contains two near-identical snapshots of the
same program: the named file `src/pong.ts` (embedded below in namespace
`PongTs`) and the unnamed snapshot `src/unnamed/part_000` (embedded in
namespace `Part0`).  JavaScript numbers are modelled as rationals; the
transcendental library functions (`Math.cos`, `Math.sin`, `Math.sqrt`,
`Math.log`, `Math.exp`, `Math.PI`) are abstracted as an explicit record of
rational functions (`MathOps`), since none of the verified properties
depends on their values.
-/

/-- Abstraction of the JavaScript `Math` library functions used by the
source.  In JavaScript these are fixed functions on IEEE doubles; here they
are an arbitrary parameter, which keeps every definition computable and
makes each theorem hold for every choice of them. -/
structure MathOps where
  cos : ℚ → ℚ
  sin : ℚ → ℚ
  sqrt : ℚ → ℚ
  log : ℚ → ℚ
  exp : ℚ → ℚ
  pi : ℚ

/-- A concrete instantiation of `MathOps` (all functions zero), used only to
evaluate definitions at concrete inputs in witnesses whose truth does not
depend on the transcendental values. -/
def zeroMath : MathOps :=
  { cos := fun _ => 0, sin := fun _ => 0, sqrt := fun _ => 0
    log := fun _ => 0, exp := fun _ => 0, pi := 0 }

/-- Model of the JavaScript `%` operator as used by the source.  The source
only ever applies `%` with a nonnegative left operand and a positive right
operand (LCG seeds), where JavaScript `%` agrees with the floor-based
remainder used here. -/
def jsMod (a b : ℚ) : ℚ := a - b * (⌊a / b⌋ : ℚ)

/-- The `Player_type` enum, identical in both snapshots. -/
inductive Player_type where
  | CONTROLLED_PLAYER
  | AI
  deriving DecidableEq, Repr

/-- The `Ball_type` enum (both snapshots declare the same three members). -/
inductive Ball_type where
  | main_ball
  | heuristic_ball
  | power_ball
  deriving DecidableEq, Repr

namespace Part0

/-! ## Embedding of the snapshot `src/unnamed/part_000` -/

/-- The `power_up_type` enum of `part_000` (member 2 is `fast_ball`).  The
member the source calls `return` is rendered `return_` because `return` is a
Lean keyword. -/
inductive power_up_type where
  | none
  | speed
  | fast_ball
  | return_
  | expand
  deriving DecidableEq, Repr

/-- The `Vector` class of `part_000`: a 2-D velocity stored as magnitude and
angle (`dx`/`dy` are derived, see `Vector.dx`, `Vector.dy`). -/
structure Vector where
  magnitude : ℚ
  angle : ℚ
  deriving DecidableEq, Repr

/-- Derived Cartesian component `dx = magnitude * cos angle`. -/
def Vector.dx (v : Vector) (M : MathOps) : ℚ := v.magnitude * M.cos v.angle

/-- Derived Cartesian component `dy = magnitude * sin angle`. -/
def Vector.dy (v : Vector) (M : MathOps) : ℚ := v.magnitude * M.sin v.angle

/-- The `scale` method of `Vector`. -/
def Vector.scale (v : Vector) (s : ℚ) : Vector := ⟨v.magnitude * s, v.angle⟩

/-- The `x_reflect` method: `new Vector(-magnitude, -angle)`. -/
def Vector.x_reflect (v : Vector) : Vector := ⟨-v.magnitude, -v.angle⟩

/-- The `y_reflect` method: `new Vector(magnitude, -angle)`. -/
def Vector.y_reflect (v : Vector) : Vector := ⟨v.magnitude, -v.angle⟩

/-- The `x_reflect_paddle` method of `part_000`:
`new_mag = magnitude * (|strength| / 2 + 0.9)`, `new_angle = strength`,
result `new Vector(-new_mag, -new_angle)`. -/
def Vector.x_reflect_paddle (v : Vector) (strength : ℚ) : Vector :=
  ⟨-(v.magnitude * (|strength| / 2 + 9/10)), -strength⟩

/-- The `Paddle_state` record. -/
structure Paddle_state where
  y : ℚ
  x : ℚ
  speed : ℚ
  size : ℚ
  direction : ℚ
  deriving DecidableEq, Repr

/-- The `active_power_up` class. -/
structure active_power_up where
  power_up_t : power_up_type
  duration_left : ℚ
  deriving DecidableEq, Repr

/-- The `tick` method of `active_power_up`: `null` once the duration is
exhausted, otherwise the same kind with the duration decremented. -/
def active_power_up.tick (a : active_power_up) : Option active_power_up :=
  if a.duration_left ≤ 0 then Option.none
  else Option.some ⟨a.power_up_t, a.duration_left - 1⟩

/-- The `ball_state` record. -/
structure ball_state where
  y : ℚ
  x : ℚ
  speedX : ℚ
  speedY : ℚ
  size : ℚ
  velocity : Vector
  deriving DecidableEq, Repr

/-- The `player_state` record. -/
structure player_state where
  paddle : Paddle_state
  power_up_holding : power_up_type
  activated_power_up : Option active_power_up
  deriving DecidableEq, Repr

/-- The `ai_state` record. -/
structure ai_state where
  paddle : Paddle_state
  y_target : ℚ
  heuristic_ball : Option ball_state
  power_up_holding : power_up_type
  activated_power_up : Option active_power_up
  deriving DecidableEq, Repr

/-- The `power_up_ball_state` record. -/
structure power_up_ball_state where
  y : ℚ
  x : ℚ
  velocity : Vector
  is_active : Bool
  ms_left_visible : ℚ
  size : ℚ
  deriving DecidableEq, Repr

/-- The `Meta_State` record of `part_000` (it carries the
`score_has_updated` latch, which `pong.ts` lacks). -/
structure Meta_State where
  difficulty : ℚ
  has_started : Bool
  is_paused : Bool
  power_up_activated : Bool
  has_ended : Bool
  rand_seed : ℚ
  button_clicked : ℚ
  last_hit : Player_type
  score_has_updated : Bool
  deriving DecidableEq, Repr

/-- The aggregate `State` record. -/
structure State where
  player_state : player_state
  ai_paddle : ai_state
  ball : ball_state
  power_up_ball : power_up_ball_state
  ai_score : ℚ
  player_score : ℚ
  meta_state : Meta_State
  deriving DecidableEq, Repr

/-- Initial player paddle. -/
def initial_player_paddle_state : Paddle_state :=
  { x := 565, y := 100, speed := 5, size := 1, direction := 0 }

/-- Initial AI paddle. -/
def initial_ai_paddle_state : Paddle_state :=
  { x := 25, y := 100, speed := 5, size := 1, direction := 0 }

/-- Initial player state (holding a `fast_ball` power-up in this snapshot). -/
def initial_player_state : player_state :=
  { paddle := initial_player_paddle_state
    power_up_holding := power_up_type.fast_ball
    activated_power_up := Option.none }

/-- Initial AI state. -/
def initial_ai_state : ai_state :=
  { paddle := initial_ai_paddle_state, y_target := 300
    heuristic_ball := Option.none
    power_up_holding := power_up_type.none
    activated_power_up := Option.none }

/-- Initial main ball. -/
def initial_ball_State : ball_state :=
  { x := 200, y := 198, speedX := -2, speedY := 3, size := 1
    velocity := ⟨7/2, 1⟩ }

/-- Initial meta state. -/
def initial_meta_state : Meta_State :=
  { difficulty := 3, is_paused := true, has_started := false
    power_up_activated := false, has_ended := false, button_clicked := 0
    rand_seed := 1, last_hit := Player_type.AI, score_has_updated := false }

/-- Initial power-up ball. -/
def initial_pb_state : power_up_ball_state :=
  { y := 200, x := 400, velocity := ⟨2/5, 1⟩, is_active := false
    size := 1, ms_left_visible := 0 }

/-- The initial game state. -/
def initialState : State :=
  { player_state := initial_player_state
    ai_paddle := initial_ai_state
    ball := initial_ball_State
    ai_score := 0
    player_score := 0
    meta_state := initial_meta_state
    power_up_ball := initial_pb_state }

/-- The linear congruential generator `psudo_randm` (constants inlined as in
the compiled `const enum`). -/
def psudo_randm (seed : ℚ) : ℚ :=
  jsMod (1103515245 * seed + 12345) 2147483648 / (2147483648 - 1)

/-- The Box-Muller style generator `randn_bm`. -/
def randn_bm (M : MathOps) (seed variance mean : ℚ) : ℚ :=
  variance * (M.sqrt (-2 * M.log (psudo_randm seed))
    * M.cos (2 * M.pi * psudo_randm (seed + 1))) + mean

/-- The `button_click_check` function of `part_000` (menu button hit-boxes:
y-bands 347..407, 430..490 and 512..574 inside x-band 173..443). -/
def button_click_check (x y : ℚ) : ℚ :=
  if 173 < x ∧ x < 443 then
    if 347 < y ∧ y < 407 then 1
    else if 430 < y ∧ y < 490 then 2
    else if 512 < y ∧ y < 574 then 3
    else 0
  else 0

/-- The `set_seed` function: seed the RNG from the click coordinates. -/
def set_seed (s : State) (x y : ℚ) : State :=
  { s with meta_state := { s.meta_state with rand_seed := x + y } }

/-- The `set_difficulty` function. -/
def set_difficulty (new_difficulty : ℚ) (s : State) : State :=
  { s with meta_state := { s.meta_state with difficulty := new_difficulty } }

/-- The `set_start` function. -/
def set_start (s : State) : State :=
  { s with meta_state :=
      { s.meta_state with has_started := true, is_paused := false } }

/-- The `unpause` function. -/
def unpause (s : State) : State :=
  { s with meta_state := { s.meta_state with is_paused := false } }

/-- The `reset_game` function. -/
def reset_game : State := initialState

/-- The `game_start_menu` function. -/
def game_start_menu (s : State) (mouse_x mouse_y : ℚ) : State :=
  let seed_set_s := set_seed s mouse_x mouse_y
  let button_clicked := button_click_check mouse_x mouse_y
  if button_clicked ≠ 0 then set_start (set_difficulty button_clicked seed_set_s)
  else s

/-- The `pause_menu` function. -/
def pause_menu (s : State) (mouse_x mouse_y : ℚ) : State :=
  let button_clicked := button_click_check mouse_x mouse_y
  if button_clicked = 1 then unpause s
  else if button_clicked = 2 then reset_game
  else s

/-- The `end_menu` function. -/
def end_menu (s : State) (mouse_x mouse_y : ℚ) : State :=
  let button_clicked := button_click_check mouse_x mouse_y
  if button_clicked = 1 then reset_game else s

/-- The `mouse_click_func` reducer branch (the `mouse_click` event carries
the click coordinates `ex`, `ey`). -/
def mouse_click_func (s : State) (ex ey : ℚ) : State :=
  if s.meta_state.has_started = false then game_start_menu s ex ey
  else if s.meta_state.has_ended = true then end_menu s ex ey
  else if s.meta_state.is_paused = true then pause_menu s ex ey
  else s

/-- The `get_paddle_range` function, returned as the pair (min, max). -/
def get_paddle_range (Paddle_owner : Player_type) (s : State) : ℚ × ℚ :=
  let y := if Paddle_owner = Player_type.AI then s.ai_paddle.paddle.y
           else s.player_state.paddle.y
  let size := if Paddle_owner = Player_type.AI then s.ai_paddle.paddle.size
              else s.player_state.paddle.size
  (y, y + size * 80)

/-- The `ball_collide_with_paddle` function of `part_000` (goal-line
thresholds `x ≤ 41` on the AI side, `x ≥ 559` on the player side). -/
def ball_collide_with_paddle (Paddle_owner : Player_type) (s : State) : Bool :=
  let r := get_paddle_range Paddle_owner s
  let ball_size := 14 * s.ball.size
  let x_line_has_passed : Bool :=
    if Paddle_owner = Player_type.AI then decide (s.ball.x ≤ 41)
    else decide (559 ≤ s.ball.x)
  let y_collided : Bool :=
    decide (r.1 - ball_size ≤ s.ball.y ∧ s.ball.y ≤ r.2 + ball_size)
  x_line_has_passed && y_collided

/-- The `check_collision_with_both_paddle` function. -/
def check_collision_with_both_paddle (s : State) : Bool :=
  ball_collide_with_paddle Player_type.AI s
    || ball_collide_with_paddle Player_type.CONTROLLED_PLAYER s

/-- The `update_score_tick_function` of `part_000` (the variant with the
`score_has_updated` latch; the stray `console.log` in the source is a pure
side effect and is omitted).  Note that the source assigns the new
`player_score` from the old `ai_score` and vice versa. -/
def update_score_tick_function (s : State) : State :=
  if s.meta_state.score_has_updated = false
      ∧ check_collision_with_both_paddle s = false
      ∧ (562 < s.ball.x ∨ s.ball.x < 38) then
    { s with
      player_score := if 560 < s.ball.x then s.ai_score + 1 else s.ai_score
      ai_score := if s.ball.x < 38 then s.player_score + 1 else s.player_score
      meta_state := { s.meta_state with score_has_updated := true } }
  else s

/-- The `get_paddle_contact_strength` function of `part_000`: the signed
normalized offset `(paddle_center - ball_y) / (paddle_size / 2)`. -/
def get_paddle_contact_strength (p : Player_type) (s : State) : ℚ :=
  let paddle_state := if p = Player_type.AI then s.ai_paddle.paddle
                      else s.player_state.paddle
  let paddle_size := paddle_state.size * 80
  let paddle_center := paddle_state.y + paddle_size / 2
  (paddle_center - s.ball.y) / (paddle_size / 2)

/-- The `pipeFuncs` helper: left-to-right function pipeline. -/
def pipeFuncs {T : Type} (funcs : List (T → T)) (starting_v : T) : T :=
  funcs.foldl (fun curr_v f => f curr_v) starting_v

/-- The `mapFuncs` helper: apply every function in a list to one value. -/
def mapFuncs {T V : Type} (funcs : List (T → V)) (value : T) : List V :=
  funcs.map (fun f => f value)

/-- The `fastball_power_up_function`: on the tick where the remaining
duration is still above `POWERUP_TIME - 1` (= 599), multiply the main ball
speed by 4 with the angle unchanged.  In the source the active power-up is
dereferenced without a null check; all call sites guard on it being
non-null, so the `none` case (unreachable there) returns the state. -/
def fastball_power_up_function (p : Player_type) (s : State) : State :=
  let o := if p = Player_type.AI then s.ai_paddle.activated_power_up
           else s.player_state.activated_power_up
  match o with
  | Option.none => s
  | Option.some a =>
    if a.power_up_t = power_up_type.fast_ball then
      { s with ball := { s.ball with
          velocity := if 600 - 1 < a.duration_left then
              ⟨s.ball.velocity.magnitude * 4, s.ball.velocity.angle⟩
            else s.ball.velocity } }
    else s

/-- The `speed_power_up_function` of `part_000`. -/
def speed_power_up_function (p : Player_type) (s : State) : State :=
  let o := if p = Player_type.AI then s.ai_paddle.activated_power_up
           else s.player_state.activated_power_up
  match o with
  | Option.none => s
  | Option.some a =>
    if a.power_up_t = power_up_type.speed then
      if p = Player_type.CONTROLLED_PLAYER then
        { s with player_state := { s.player_state with paddle :=
            { s.player_state.paddle with
              speed := if 1 < a.duration_left then 10
                else initial_player_paddle_state.speed } } }
      else
        { s with ai_paddle := { s.ai_paddle with paddle :=
            { s.ai_paddle.paddle with
              speed := if 1 < a.duration_left then 10
                else initial_ai_paddle_state.speed } } }
    else s

/-- The `expand_power_up_function` of `part_000`. -/
def expand_power_up_function (p : Player_type) (s : State) : State :=
  let o := if p = Player_type.AI then s.ai_paddle.activated_power_up
           else s.player_state.activated_power_up
  match o with
  | Option.none => s
  | Option.some a =>
    if a.power_up_t = power_up_type.expand then
      if p = Player_type.CONTROLLED_PLAYER then
        { s with player_state := { s.player_state with paddle :=
            { s.player_state.paddle with
              size := if 1 < a.duration_left then 2 else 1 } } }
      else
        { s with ai_paddle := { s.ai_paddle with paddle :=
            { s.ai_paddle.paddle with
              size := if 1 < a.duration_left then 2 else 1 } } }
    else s

/-- The `return_power_up_function` of `part_000`. -/
def return_power_up_function (p : Player_type) (s : State) : State :=
  let o := if p = Player_type.AI then s.ai_paddle.activated_power_up
           else s.player_state.activated_power_up
  match o with
  | Option.none => s
  | Option.some a =>
    if a.power_up_t = power_up_type.return_ then
      { s with ball := { s.ball with
          velocity := if 600 - 1 < a.duration_left then s.ball.velocity.x_reflect
            else s.ball.velocity } }
    else s

/-- The `active_power_up_effect_tick` of `part_000`: if the side has an
active power-up, pipe the state through all four per-kind effect
functions. -/
def active_power_up_effect_tick (p : Player_type) (s : State) : State :=
  let o := if p = Player_type.AI then s.ai_paddle.activated_power_up
           else s.player_state.activated_power_up
  match o with
  | Option.none => s
  | Option.some _ =>
    pipeFuncs (mapFuncs [fastball_power_up_function, speed_power_up_function,
      expand_power_up_function, return_power_up_function] p) s

/-- The `new_ball_velocity` of `part_000`: the designated ball is the main
ball when `ball_type` is `main_ball` and the power-up ball otherwise (this
snapshot has no heuristic-ball case in the selector). -/
def new_ball_velocity (s : State) (ball_type : Ball_type) : Vector :=
  let is_main_ball := ball_type = Ball_type.main_ball
  let y_pos := if is_main_ball then s.ball.y else s.power_up_ball.y
  let x_pos := if is_main_ball then s.ball.x else s.power_up_ball.x
  let ball_size := (if is_main_ball then s.ball.size else s.power_up_ball.size) * 14
  let velocity := if is_main_ball then s.ball.velocity else s.power_up_ball.velocity
  if x_pos ≤ ball_size ∨ 600 - ball_size ≤ x_pos
      ∨ check_collision_with_both_paddle s = true then
    if ball_collide_with_paddle Player_type.AI s = true then
      velocity.x_reflect_paddle (get_paddle_contact_strength Player_type.AI s)
    else if ball_collide_with_paddle Player_type.CONTROLLED_PLAYER s = true then
      velocity.x_reflect
    else
      velocity.x_reflect_paddle
        (get_paddle_contact_strength Player_type.CONTROLLED_PLAYER s)
  else if y_pos ≤ ball_size ∨ 600 - ball_size ≤ y_pos then
    velocity.y_reflect
  else velocity

/-- The `move_ball_tick_function` of `part_000`: respawn the ball (and clear
the `score_has_updated` latch) when it is out of the horizontal play area,
otherwise advance it by its resolved velocity. -/
def move_ball_tick_function (M : MathOps) (s : State) : State :=
  if 600 - 30 ≤ s.ball.x ∨ s.ball.x ≤ 30 then
    { s with
      ball := { s.ball with
        x := randn_bm M (s.meta_state.rand_seed + 10) 50 200
        y := randn_bm M (s.meta_state.rand_seed + 11) 50 200
        velocity := ⟨initial_ball_State.velocity.magnitude,
          psudo_randm (s.meta_state.rand_seed + 13)⟩ }
      meta_state := { s.meta_state with score_has_updated := false } }
  else
    { s with ball := { s.ball with
        x := s.ball.x + (new_ball_velocity s Ball_type.main_ball).dx M
        y := s.ball.y + (new_ball_velocity s Ball_type.main_ball).dy M
        velocity := new_ball_velocity s Ball_type.main_ball } }

end Part0

namespace PongTs

/-! ## Embedding of the named source file `src/pong.ts` -/

/-- The `power_up_type` enum of `pong.ts` (member 2 is `health`).  The
member the source calls `return` is rendered `return_` because `return` is a
Lean keyword. -/
inductive power_up_type where
  | none
  | speed
  | health
  | return_
  | expand
  deriving DecidableEq, Repr

/-- The `Vector` class of `pong.ts` (magnitude and angle; `dx`/`dy` are
derived, see `Vector.dx`, `Vector.dy`). -/
structure Vector where
  magnitude : ℚ
  angle : ℚ
  deriving DecidableEq, Repr

/-- Derived Cartesian component `dx = magnitude * cos angle`. -/
def Vector.dx (v : Vector) (M : MathOps) : ℚ := v.magnitude * M.cos v.angle

/-- Derived Cartesian component `dy = magnitude * sin angle`. -/
def Vector.dy (v : Vector) (M : MathOps) : ℚ := v.magnitude * M.sin v.angle

/-- The `scale` method of `Vector`. -/
def Vector.scale (v : Vector) (s : ℚ) : Vector := ⟨v.magnitude * s, v.angle⟩

/-- The `x_reflect` method: `new Vector(-magnitude, -angle)`. -/
def Vector.x_reflect (v : Vector) : Vector := ⟨-v.magnitude, -v.angle⟩

/-- The `y_reflect` method: `new Vector(magnitude, -angle)`. -/
def Vector.y_reflect (v : Vector) : Vector := ⟨v.magnitude, -v.angle⟩

/-- The `x_reflect_paddle` method of `pong.ts`:
`new_mag = magnitude * (strength + 0.6)`,
`new_angle = angle + strength * 0.5`, result `new Vector(-new_mag, -new_angle)`. -/
def Vector.x_reflect_paddle (v : Vector) (strength : ℚ) : Vector :=
  ⟨-(v.magnitude * (strength + 6/10)), -(v.angle + strength * (5/10))⟩

/-- The `Paddle_state` record. -/
structure Paddle_state where
  y : ℚ
  x : ℚ
  speed : ℚ
  size : ℚ
  direction : ℚ
  deriving DecidableEq, Repr

/-- The `active_power_up` class. -/
structure active_power_up where
  power_up_t : power_up_type
  duration_left : ℚ
  deriving DecidableEq, Repr

/-- The `tick` method of `active_power_up`. -/
def active_power_up.tick (a : active_power_up) : Option active_power_up :=
  if a.duration_left ≤ 0 then Option.none
  else Option.some ⟨a.power_up_t, a.duration_left - 1⟩

/-- The `ball_state` record. -/
structure ball_state where
  y : ℚ
  x : ℚ
  speedX : ℚ
  speedY : ℚ
  size : ℚ
  velocity : Vector
  deriving DecidableEq, Repr

/-- The `player_state` record. -/
structure player_state where
  paddle : Paddle_state
  power_up_holding : power_up_type
  activated_power_up : Option active_power_up
  deriving DecidableEq, Repr

/-- The `ai_state` record. -/
structure ai_state where
  paddle : Paddle_state
  y_target : ℚ
  heuristic_ball : Option ball_state
  power_up_holding : power_up_type
  activated_power_up : Option active_power_up
  deriving DecidableEq, Repr

/-- The `power_up_ball_state` record. -/
structure power_up_ball_state where
  y : ℚ
  x : ℚ
  velocity : Vector
  is_active : Bool
  ms_left_visible : ℚ
  size : ℚ
  deriving DecidableEq, Repr

/-- The `Meta_State` record of `pong.ts` (no `score_has_updated` latch in
this snapshot). -/
structure Meta_State where
  difficulty : ℚ
  has_started : Bool
  is_paused : Bool
  power_up_activated : Bool
  has_ended : Bool
  rand_seed : ℚ
  button_clicked : ℚ
  last_hit : Player_type
  deriving DecidableEq, Repr

/-- The aggregate `State` record. -/
structure State where
  player_state : player_state
  ai_paddle : ai_state
  ball : ball_state
  power_up_ball : power_up_ball_state
  player_score : ℚ
  ai_score : ℚ
  meta_state : Meta_State
  deriving DecidableEq, Repr

/-- Initial player paddle. -/
def initial_player_paddle_state : Paddle_state :=
  { x := 565, y := 100, speed := 5, size := 1, direction := 0 }

/-- Initial AI paddle. -/
def initial_ai_paddle_state : Paddle_state :=
  { x := 25, y := 100, speed := 5, size := 1, direction := 0 }

/-- Initial player state (holding a `return` power-up in this snapshot). -/
def initial_player_state : player_state :=
  { paddle := initial_player_paddle_state
    power_up_holding := power_up_type.return_
    activated_power_up := Option.none }

/-- Initial AI state. -/
def initial_ai_state : ai_state :=
  { paddle := initial_ai_paddle_state, y_target := 300
    heuristic_ball := Option.none
    power_up_holding := power_up_type.none
    activated_power_up := Option.none }

/-- Initial main ball. -/
def initial_ball_State : ball_state :=
  { x := 200, y := 198, speedX := -2, speedY := 3, size := 1
    velocity := ⟨7/2, 1⟩ }

/-- Initial meta state. -/
def initial_meta_state : Meta_State :=
  { difficulty := 3, is_paused := true, has_started := false
    power_up_activated := false, has_ended := false, button_clicked := 0
    rand_seed := 1, last_hit := Player_type.AI }

/-- Initial power-up ball. -/
def initial_pb_state : power_up_ball_state :=
  { y := 200, x := 400, velocity := ⟨2/5, 1⟩, is_active := false
    size := 1, ms_left_visible := 0 }

/-- The initial game state. -/
def initialState : State :=
  { player_state := initial_player_state
    ai_paddle := initial_ai_state
    ball := initial_ball_State
    player_score := 0
    ai_score := 0
    meta_state := initial_meta_state
    power_up_ball := initial_pb_state }

/-- The linear congruential generator `psudo_randm`. -/
def psudo_randm (seed : ℚ) : ℚ :=
  jsMod (1103515245 * seed + 12345) 2147483648 / (2147483648 - 1)

/-- The Box-Muller style generator `randn_bm`. -/
def randn_bm (M : MathOps) (seed variance mean : ℚ) : ℚ :=
  variance * (M.sqrt (-2 * M.log (psudo_randm seed))
    * M.cos (2 * M.pi * psudo_randm (seed + 1))) + mean

/-- The `button_click_check` function of `pong.ts` (menu button hit-boxes:
y-bands 278..342, 362..432 and 442..505 inside x-band 173..443). -/
def button_click_check (x y : ℚ) : ℚ :=
  if 173 < x ∧ x < 443 then
    if 278 < y ∧ y < 342 then 1
    else if 362 < y ∧ y < 432 then 2
    else if 442 < y ∧ y < 505 then 3
    else 0
  else 0

/-- The `set_seed` function. -/
def set_seed (s : State) (x y : ℚ) : State :=
  { s with meta_state := { s.meta_state with rand_seed := x + y } }

/-- The `prediction_deviation` function of `pong.ts`. -/
def prediction_deviation (M : MathOps) (s : State) : ℚ :=
  let player_help := 5/10 * (1 / (1 + M.exp (s.ai_score - 4))) + 5/100
  let ai_help := 35/100 * (1 / (1 + M.exp (-s.player_score + 4)))
  let variance := (player_help + ai_help) * (90 / s.meta_state.difficulty)
  randn_bm M s.meta_state.rand_seed variance 0

/-- The `move_player_paddle_func` reducer branch (the event carries the new
direction). -/
def move_player_paddle_func (s : State) (direction : ℚ) : State :=
  { s with player_state := { s.player_state with paddle :=
      { s.player_state.paddle with direction := direction } } }

/-- The `pause_func` reducer branch (its event argument is unused in the
source). -/
def pause_func (s : State) : State :=
  if s.meta_state.has_started = true ∧ s.meta_state.has_ended = false then
    { s with meta_state :=
        { s.meta_state with is_paused := !s.meta_state.is_paused } }
  else s

/-- The `set_difficulty` function. -/
def set_difficulty (new_difficulty : ℚ) (s : State) : State :=
  { s with meta_state := { s.meta_state with difficulty := new_difficulty } }

/-- The `set_start` function. -/
def set_start (s : State) : State :=
  { s with meta_state :=
      { s.meta_state with has_started := true, is_paused := false } }

/-- The `unpause` function. -/
def unpause (s : State) : State :=
  { s with meta_state := { s.meta_state with is_paused := false } }

/-- The `reset_game` function. -/
def reset_game : State := initialState

/-- The `game_start_menu` function. -/
def game_start_menu (s : State) (mouse_x mouse_y : ℚ) : State :=
  let seed_set_s := set_seed s mouse_x mouse_y
  let button_clicked := button_click_check mouse_x mouse_y
  if button_clicked ≠ 0 then set_start (set_difficulty button_clicked seed_set_s)
  else s

/-- The `pause_menu` function. -/
def pause_menu (s : State) (mouse_x mouse_y : ℚ) : State :=
  let button_clicked := button_click_check mouse_x mouse_y
  if button_clicked = 1 then unpause s
  else if button_clicked = 2 then reset_game
  else s

/-- The `end_menu` function. -/
def end_menu (s : State) (mouse_x mouse_y : ℚ) : State :=
  let button_clicked := button_click_check mouse_x mouse_y
  if button_clicked = 1 then reset_game else s

/-- The `mouse_click_func` reducer branch: route the click to the start
menu, end menu or pause menu depending on the game phase, and ignore it
during live play. -/
def mouse_click_func (s : State) (ex ey : ℚ) : State :=
  if s.meta_state.has_started = false then game_start_menu s ex ey
  else if s.meta_state.has_ended = true then end_menu s ex ey
  else if s.meta_state.is_paused = true then pause_menu s ex ey
  else s

/-- The `activate_power_ball` reducer branch (the event carries the flag). -/
def activate_power_ball (s : State) (activated : Bool) : State :=
  { s with meta_state :=
      { s.meta_state with power_up_activated := activated } }

/-- The `get_new_player_y` function of `pong.ts`: note that the two clamp
tests compare `y + direction` while the unclamped branch moves by
`y + direction * speed`. -/
def get_new_player_y (direction : ℚ) (s : State) : ℚ :=
  if s.player_state.paddle.y + direction < 0 then 0
  else if 600 - s.player_state.paddle.size * 80
      < s.player_state.paddle.y + direction then
    600 - s.player_state.paddle.size * 80
  else s.player_state.paddle.y + direction * s.player_state.paddle.speed

/-- The `move_player_tick_function`. -/
def move_player_tick_function (s : State) : State :=
  { s with player_state := { s.player_state with paddle :=
      { s.player_state.paddle with
        y := get_new_player_y s.player_state.paddle.direction s } } }

/-- The `get_new_ai_y` function: snap inside the speed-sized dead zone,
otherwise step by one `paddle_speed` toward the target (no clamp). -/
def get_new_ai_y (curr_y target_y paddle_speed : ℚ) : ℚ :=
  if |curr_y - target_y| ≤ paddle_speed then curr_y
  else if curr_y < target_y then curr_y + paddle_speed
  else curr_y - paddle_speed

/-- The `move_ai_tick_function`. -/
def move_ai_tick_function (s : State) : State :=
  { s with ai_paddle := { s.ai_paddle with paddle :=
      { s.ai_paddle.paddle with
        y := get_new_ai_y s.ai_paddle.paddle.y s.ai_paddle.y_target
          s.ai_paddle.paddle.speed } } }

/-- The `in_y_range` helper: clamp into the fixed band [0, 540]. -/
def in_y_range (y : ℚ) : ℚ := max (min y 540) 0

/-- The `get_y_target` function. -/
def get_y_target (M : MathOps) (s : State) : ℚ :=
  match s.ai_paddle.heuristic_ball with
  | Option.some hb =>
    if hb.x < 40 then hb.y - 40 + prediction_deviation M s
    else s.ai_paddle.y_target
  | Option.none =>
    if s.ball.x < 40 then randn_bm M (s.meta_state.rand_seed + 3) 250 300
    else s.ai_paddle.y_target

/-- The `find_ai_target_tick_function`. -/
def find_ai_target_tick_function (M : MathOps) (s : State) : State :=
  { s with ai_paddle := { s.ai_paddle with
      y_target := in_y_range (get_y_target M s) } }

/-- The `get_paddle_range` function, returned as the pair (min, max). -/
def get_paddle_range (Paddle_owner : Player_type) (s : State) : ℚ × ℚ :=
  let y := if Paddle_owner = Player_type.AI then s.ai_paddle.paddle.y
           else s.player_state.paddle.y
  let size := if Paddle_owner = Player_type.AI then s.ai_paddle.paddle.size
              else s.player_state.paddle.size
  (y, y + size * 80)

/-- The `ball_collide_with_paddle` function of `pong.ts` (goal-line
thresholds `x ≤ 40` on the AI side, `x ≥ 560` on the player side). -/
def ball_collide_with_paddle (Paddle_owner : Player_type) (s : State) : Bool :=
  let r := get_paddle_range Paddle_owner s
  let ball_size := 14 * s.ball.size
  let x_line_has_passed : Bool :=
    if Paddle_owner = Player_type.AI then decide (s.ball.x ≤ 40)
    else decide (560 ≤ s.ball.x)
  let y_collided : Bool :=
    decide (r.1 - ball_size ≤ s.ball.y ∧ s.ball.y ≤ r.2 + ball_size)
  x_line_has_passed && y_collided

/-- The `check_collision_with_both_paddle` function. -/
def check_collision_with_both_paddle (s : State) : Bool :=
  ball_collide_with_paddle Player_type.AI s
    || ball_collide_with_paddle Player_type.CONTROLLED_PLAYER s

/-- The `get_paddle_contact_strength` function of `pong.ts`: the absolute
(unsigned) normalized offset `|paddle_center - ball_y| / (paddle_size / 2)`. -/
def get_paddle_contact_strength (p : Player_type) (s : State) : ℚ :=
  let paddle_state := if p = Player_type.AI then s.ai_paddle.paddle
                      else s.player_state.paddle
  let paddle_size := paddle_state.size * 80
  let paddle_center := paddle_state.y + paddle_size / 2
  |paddle_center - s.ball.y| / (paddle_size / 2)

/-- The designated ball of `new_ball_velocity`, exposed as the tuple
(y, x, size, velocity) of the four fields the source reads.  In the source
the heuristic case dereferences `s.ai_paddle.heuristic_ball`, which all call
sites guard to be non-null; the `none` fallback to the main ball is
unreachable there (TypeScript would throw on it). -/
def nbv_fields (s : State) (ball_type : Ball_type) : ℚ × ℚ × ℚ × Vector :=
  match ball_type with
  | Ball_type.heuristic_ball =>
    match s.ai_paddle.heuristic_ball with
    | Option.some hb => (hb.y, hb.x, hb.size, hb.velocity)
    | Option.none => (s.ball.y, s.ball.x, s.ball.size, s.ball.velocity)
  | Ball_type.main_ball => (s.ball.y, s.ball.x, s.ball.size, s.ball.velocity)
  | Ball_type.power_ball =>
    (s.power_up_ball.y, s.power_up_ball.x, s.power_up_ball.size,
      s.power_up_ball.velocity)

/-- The `new_ball_velocity` of `pong.ts`: paddle contact (AI side first,
then player side) is resolved with `x_reflect_paddle`, a vertical-wall hit
without paddle contact with plain `x_reflect`, and only otherwise is the
horizontal-wall `y_reflect` case considered. -/
def new_ball_velocity (s : State) (ball_type : Ball_type) : Vector :=
  let f := nbv_fields s ball_type
  let y_pos := f.1
  let x_pos := f.2.1
  let ball_size := f.2.2.1 * 14
  let velocity := f.2.2.2
  if x_pos ≤ ball_size ∨ 600 - ball_size ≤ x_pos
      ∨ check_collision_with_both_paddle s = true then
    if ball_collide_with_paddle Player_type.AI s = true then
      velocity.x_reflect_paddle (get_paddle_contact_strength Player_type.AI s)
    else if ball_collide_with_paddle Player_type.CONTROLLED_PLAYER s = true then
      velocity.x_reflect_paddle
        (get_paddle_contact_strength Player_type.CONTROLLED_PLAYER s)
    else velocity.x_reflect
  else if y_pos ≤ ball_size ∨ 600 - ball_size ≤ y_pos then
    velocity.y_reflect
  else velocity

/-- The `move_heuristic_ball_tick_function` of `pong.ts` (the unused local
`new_player_y` computed by the source is dead code and is omitted). -/
def move_heuristic_ball_tick_function (M : MathOps) (s : State) : State :=
  { s with ai_paddle := { s.ai_paddle with
      heuristic_ball :=
        match s.ai_paddle.heuristic_ball with
        | Option.some hb =>
          if hb.x < 40 then Option.none
          else Option.some { hb with
            x := hb.x + (new_ball_velocity s Ball_type.heuristic_ball).dx M * 2
            y := hb.y + (new_ball_velocity s Ball_type.heuristic_ball).dy M * 2
            velocity := new_ball_velocity s Ball_type.heuristic_ball }
        | Option.none =>
          if ball_collide_with_paddle Player_type.CONTROLLED_PLAYER s = true then
            Option.some { s.ball with
              x := s.ball.x + (new_ball_velocity s Ball_type.main_ball).dx M
              y := s.ball.y + (new_ball_velocity s Ball_type.main_ball).dy M
              velocity := new_ball_velocity s Ball_type.main_ball }
          else Option.none } }

/-- The `move_ball_tick_function` of `pong.ts`: respawn the ball at a fresh
random position and angle when it is out of the horizontal play area with no
paddle contact, otherwise advance it by its resolved velocity. -/
def move_ball_tick_function (M : MathOps) (s : State) : State :=
  if (562 < s.ball.x ∨ s.ball.x < 34)
      ∧ check_collision_with_both_paddle s = false then
    { s with ball := { s.ball with
        x := randn_bm M (s.meta_state.rand_seed + 10) 50 100
        y := randn_bm M (s.meta_state.rand_seed + 11) 50 100
        velocity := ⟨initial_ball_State.velocity.magnitude,
          psudo_randm (s.meta_state.rand_seed + 13)⟩ } }
  else
    { s with ball := { s.ball with
        x := s.ball.x + (new_ball_velocity s Ball_type.main_ball).dx M
        y := s.ball.y + (new_ball_velocity s Ball_type.main_ball).dy M
        velocity := new_ball_velocity s Ball_type.main_ball } }

/-- The `get_new_power_ball_velocity` function (the second condition reads
`s.ball.y` rather than the power-ball y, exactly as the source does). -/
def get_new_power_ball_velocity (s : State) : Vector :=
  if s.power_up_ball.x ≤ 100 ∨ 400 ≤ s.power_up_ball.x then
    s.power_up_ball.velocity.x_reflect
  else if s.power_up_ball.y ≤ 100 ∨ 400 ≤ s.ball.y then
    s.power_up_ball.velocity.y_reflect
  else s.power_up_ball.velocity

/-- The `move_power_ball_tick_function`. -/
def move_power_ball_tick_function (M : MathOps) (s : State) : State :=
  { s with power_up_ball := { s.power_up_ball with
      x := s.power_up_ball.x + (get_new_power_ball_velocity s).dx M
      y := s.power_up_ball.y + (get_new_power_ball_velocity s).dy M
      velocity := get_new_power_ball_velocity s } }

/-- The `update_score_tick_function` of `pong.ts` (no latch in this
snapshot): increment `player_score` whenever the ball is past x = 562 and
`ai_score` whenever it is below x = 34. -/
def update_score_tick_function (s : State) : State :=
  { s with
    player_score := if 562 < s.ball.x then s.player_score + 1 else s.player_score
    ai_score := if s.ball.x < 34 then s.ai_score + 1 else s.ai_score }

/-- The `check_for_last_hit` function. -/
def check_for_last_hit (s : State) : State :=
  if ball_collide_with_paddle Player_type.AI s = true then
    { s with meta_state := { s.meta_state with last_hit := Player_type.AI } }
  else if ball_collide_with_paddle Player_type.CONTROLLED_PLAYER s = true then
    { s with meta_state :=
        { s.meta_state with last_hit := Player_type.CONTROLLED_PLAYER } }
  else s

/-- The `update_seed_tick_function`. -/
def update_seed_tick_function (s : State) : State :=
  { s with meta_state := { s.meta_state with
      rand_seed := jsMod (s.meta_state.rand_seed + 111) 100000000000 } }

/-- The `check_if_player_power_up_activated` function.  The source guard
`power_up_holding !== null` compares a (non-nullable) enum against `null`
and is therefore always true; only `has_activated` decides. -/
def check_if_player_power_up_activated (p : Player_type) (s : State) : State :=
  let has_activated : Bool :=
    if p = Player_type.AI then
      decide (psudo_randm (s.meta_state.rand_seed + 50) < 1/1000)
    else s.meta_state.power_up_activated
  if has_activated = true then
    if p = Player_type.AI then
      { s with ai_paddle := { s.ai_paddle with
          power_up_holding := power_up_type.none
          activated_power_up :=
            if s.ai_paddle.power_up_holding ≠ power_up_type.none then
              Option.some ⟨s.ai_paddle.power_up_holding, 600⟩
            else s.ai_paddle.activated_power_up } }
    else
      { s with player_state := { s.player_state with
          power_up_holding := power_up_type.none
          activated_power_up :=
            if s.player_state.power_up_holding ≠ power_up_type.none then
              Option.some ⟨s.player_state.power_up_holding, 600⟩
            else s.player_state.activated_power_up } }
  else s

/-- The `ball_collision_ball` function. -/
def ball_collision_ball (s : State) : Bool :=
  let y_in_range : Bool := decide (s.power_up_ball.y ≤ s.ball.y
    ∧ s.ball.y ≤ s.power_up_ball.y + 65)
  let x_in_range : Bool := decide (s.power_up_ball.x ≤ s.ball.x
    ∧ s.ball.x ≤ s.power_up_ball.x + 65)
  y_in_range && x_in_range && s.power_up_ball.is_active

/-- The `return_random_power_up` function of `pong.ts`. -/
def return_random_power_up (s : State) : power_up_type :=
  let rand_num := psudo_randm (s.meta_state.rand_seed + 40)
  if rand_num < 25/100 then power_up_type.expand
  else if 25/100 < rand_num ∧ rand_num < 50/100 then power_up_type.health
  else if 50/100 < rand_num ∧ rand_num < 75/100 then power_up_type.speed
  else if 75/100 < rand_num then power_up_type.return_
  else power_up_type.none

/-- The `check_pb_interaction_tick` function. -/
def check_pb_interaction_tick (s : State) : State :=
  if ball_collision_ball s = true then
    if s.meta_state.last_hit = Player_type.AI
        ∧ s.ai_paddle.power_up_holding = power_up_type.none then
      { s with
        power_up_ball := { s.power_up_ball with is_active := false }
        ai_paddle := { s.ai_paddle with
          power_up_holding := return_random_power_up s } }
    else if s.meta_state.last_hit = Player_type.CONTROLLED_PLAYER
        ∧ s.player_state.power_up_holding = power_up_type.none then
      { s with
        power_up_ball := { s.power_up_ball with is_active := false }
        player_state := { s.player_state with
          power_up_holding := return_random_power_up s } }
    else s
  else s

/-- The `appear_pb_on_screen_tick` function. -/
def appear_pb_on_screen_tick (s : State) : State :=
  { s with power_up_ball := { s.power_up_ball with
      is_active :=
        if psudo_randm (s.meta_state.rand_seed + 41) < 1/1000 then true
        else s.power_up_ball.is_active } }

/-- The `active_power_up_tick` function: advance (decrement) the side's
active power-up if there is one. -/
def active_power_up_tick (p : Player_type) (s : State) : State :=
  let o := if p = Player_type.AI then s.ai_paddle.activated_power_up
           else s.player_state.activated_power_up
  match o with
  | Option.none => s
  | Option.some a =>
    if p = Player_type.AI then
      { s with ai_paddle := { s.ai_paddle with activated_power_up := a.tick } }
    else
      { s with player_state :=
          { s.player_state with activated_power_up := a.tick } }

/-- The `health_power_up_function` of `pong.ts`: while a `health` power-up
is active, decrement the opposing side's score by one (per tick, with no
lower bound).  The source dereferences the active power-up without a null
check; all call sites guard on it being non-null, so the `none` case
(unreachable there) returns the state. -/
def health_power_up_function (p : Player_type) (s : State) : State :=
  let o := if p = Player_type.AI then s.ai_paddle.activated_power_up
           else s.player_state.activated_power_up
  match o with
  | Option.none => s
  | Option.some a =>
    if a.power_up_t = power_up_type.health then
      if p = Player_type.AI then { s with player_score := s.player_score - 1 }
      else { s with ai_score := s.ai_score - 1 }
    else s

/-- The `speed_power_up_function` of `pong.ts`. -/
def speed_power_up_function (p : Player_type) (s : State) : State :=
  let o := if p = Player_type.AI then s.ai_paddle.activated_power_up
           else s.player_state.activated_power_up
  match o with
  | Option.none => s
  | Option.some a =>
    if a.power_up_t = power_up_type.speed then
      if p = Player_type.CONTROLLED_PLAYER then
        { s with player_state := { s.player_state with paddle :=
            { s.player_state.paddle with
              speed := if 1 < a.duration_left then 10
                else initial_player_paddle_state.speed } } }
      else
        { s with ai_paddle := { s.ai_paddle with paddle :=
            { s.ai_paddle.paddle with
              speed := if 1 < a.duration_left then 4 else 1 } } }
    else s

/-- The `expand_power_up_function` of `pong.ts`. -/
def expand_power_up_function (p : Player_type) (s : State) : State :=
  let o := if p = Player_type.AI then s.ai_paddle.activated_power_up
           else s.player_state.activated_power_up
  match o with
  | Option.none => s
  | Option.some a =>
    if a.power_up_t = power_up_type.expand then
      if p = Player_type.CONTROLLED_PLAYER then
        { s with player_state := { s.player_state with paddle :=
            { s.player_state.paddle with
              size := if 1 < a.duration_left then 2 else 1 } } }
      else
        { s with ai_paddle := { s.ai_paddle with paddle :=
            { s.ai_paddle.paddle with
              size := if 1 < a.duration_left then 2 else 1 } } }
    else s

/-- The `return_power_up_function` of `pong.ts`. -/
def return_power_up_function (p : Player_type) (s : State) : State :=
  let o := if p = Player_type.AI then s.ai_paddle.activated_power_up
           else s.player_state.activated_power_up
  match o with
  | Option.none => s
  | Option.some a =>
    if a.power_up_t = power_up_type.return_ then
      { s with ball := { s.ball with
          velocity := if 600 - 1 < a.duration_left then s.ball.velocity.x_reflect
            else s.ball.velocity } }
    else s

/-- The `pipeFuncs` helper of `pong.ts`. -/
def pipeFuncs {T : Type} (funcs : List (T → T)) (starting_v : T) : T :=
  funcs.foldl (fun curr_v f => f curr_v) starting_v

/-- The `mapFuncs` helper of `pong.ts`. -/
def mapFuncs {T V : Type} (funcs : List (T → V)) (value : T) : List V :=
  funcs.map (fun f => f value)

/-- The `active_power_up_effect_tick` of `pong.ts`: if the side has an
active power-up, pipe the state through all four per-kind effect
functions. -/
def active_power_up_effect_tick (p : Player_type) (s : State) : State :=
  let o := if p = Player_type.AI then s.ai_paddle.activated_power_up
           else s.player_state.activated_power_up
  match o with
  | Option.none => s
  | Option.some _ =>
    pipeFuncs (mapFuncs [health_power_up_function, speed_power_up_function,
      expand_power_up_function, return_power_up_function] p) s

/-- The `check_end_game_tick_function`: set `is_paused` and `has_ended` to
whether either score has reached 7. -/
def check_end_game_tick_function (s : State) : State :=
  let game_ended : Bool := decide (7 ≤ s.player_score ∨ 7 ≤ s.ai_score)
  { s with meta_state := { s.meta_state with
      is_paused := game_ended, has_ended := game_ended } }

/-- The `Tick_func` of `pong.ts`: when not paused, thread the state through
the full ordered list of tick functions (its event argument is unused in the
source). -/
def Tick_func (M : MathOps) (s : State) : State :=
  let tick_functions : List (State → State) := [
    move_player_tick_function,
    move_ai_tick_function,
    active_power_up_effect_tick Player_type.CONTROLLED_PLAYER,
    active_power_up_effect_tick Player_type.AI,
    active_power_up_tick Player_type.AI,
    active_power_up_tick Player_type.CONTROLLED_PLAYER,
    find_ai_target_tick_function M,
    move_heuristic_ball_tick_function M,
    move_ball_tick_function M,
    move_power_ball_tick_function M,
    update_score_tick_function,
    update_seed_tick_function,
    check_end_game_tick_function,
    check_if_player_power_up_activated Player_type.CONTROLLED_PLAYER,
    check_if_player_power_up_activated Player_type.AI,
    check_for_last_hit,
    check_pb_interaction_tick,
    appear_pb_on_screen_tick]
  if s.meta_state.is_paused = true then s else pipeFuncs tick_functions s

end PongTs

namespace Part0

/-! ## Concrete fixture states for the `part_000` snapshot -/

/-- A state with the main ball held just past the left goal line (x = 20)
with no paddle contact (y = 300 is outside both paddle ranges), with scores
player 0, AI 5 and the score latch clear. -/
def c1_state : State :=
  { initialState with
    ball := { initialState.ball with x := 20, y := 300 }
    ai_score := 5 }

/-- The state `c1_state` after its scoring tick has fired: the two counters
have been exchanged (with the AI counter rebuilt from the old player counter
plus one) and the latch is set. -/
def c1_state_after : State :=
  { c1_state with
    player_score := 5
    ai_score := 1
    meta_state := { c1_state.meta_state with score_has_updated := true } }

/-- A state whose main ball (y = 150) is inside the AI paddle span
[100, 180], used to evaluate the contact strength. -/
def c4_state : State :=
  { initialState with ball := { initialState.ball with y := 150 } }

/-- The paddle a contact strength refers to, as selected by
`get_paddle_contact_strength`. -/
def c4_paddle (p : Player_type) (s : State) : Paddle_state :=
  if p = Player_type.AI then s.ai_paddle.paddle else s.player_state.paddle

/-- A state in which the player has just activated a `fast_ball` power-up
(`duration_left` at its maximum 600). -/
def c9_state : State :=
  { initialState with player_state := { initialState.player_state with
      activated_power_up :=
        Option.some ⟨power_up_type.fast_ball, 600⟩ } }

end Part0

namespace PongTs

/-! ## Concrete fixture states for the `pong.ts` snapshot -/

/-- A state with the player paddle one unit above the clamp boundary
(y = 519, band [0, 520]) and moving down. -/
def c2_state : State :=
  { initialState with player_state := { initialState.player_state with
      paddle := { initialState.player_state.paddle with
        y := 519, direction := 1 } } }

/-- A state in which the AI paddle reports ball contact (ball at x = 20,
y = 100, inside the AI paddle span). -/
def c5_stateA : State :=
  { initialState with ball := { initialState.ball with x := 20, y := 100 } }

/-- A state in which the player paddle reports ball contact (ball at
x = 565, y = 100). -/
def c5_stateP : State :=
  { initialState with ball := { initialState.ball with x := 565, y := 100 } }

/-- A state with the ball within one radius of the left wall (x = 5) but no
paddle contact (y = 300 is outside the AI paddle span). -/
def c5_stateW : State :=
  { initialState with ball := { initialState.ball with x := 5, y := 300 } }

/-- A state with the ball within one radius of the top wall (y = 5) and away
from both vertical walls and paddles (x = 300). -/
def c5_stateY : State :=
  { initialState with ball := { initialState.ball with x := 300, y := 5 } }

/-- An ended game state: the player score has reached 7, the game is
started, ended and paused. -/
def c6_state : State :=
  { initialState with
    player_score := 7
    meta_state := { initialState.meta_state with
      has_started := true, has_ended := true, is_paused := true } }

/-- A state in which the AI side has an active `health` power-up and both
scores are zero. -/
def c7_state : State :=
  { initialState with ai_paddle := { initialState.ai_paddle with
      activated_power_up := Option.some ⟨power_up_type.health, 600⟩ } }

/-- A live-play state: started, not ended, not paused. -/
def c10_state : State :=
  { initialState with meta_state := { initialState.meta_state with
      has_started := true, is_paused := false } }

end PongTs

/-! ## Claim theorems -/

/-- C8: from the initial state (`has_started = false`), processing the
single pointer-click event at (300, 370) yields a state with
`has_started = true`, `is_paused = false` and `difficulty = 1` (verified
against the `part_000` snapshot, whose start-menu button band 347..407 the
click falls into). -/
theorem part0_c8_scenario_a :
    (Part0.mouse_click_func Part0.initialState 300 370).meta_state.has_started = true
    ∧ (Part0.mouse_click_func Part0.initialState 300 370).meta_state.is_paused = false
    ∧ (Part0.mouse_click_func Part0.initialState 300 370).meta_state.difficulty = 1 := by
  decide

/-- C1: evaluation of the `part_000` scoring update at the failing input.
Holding the ball just past the left goal line with no paddle contact for 50
consecutive ticks from scores (player 0, AI 5) produces (player 5, AI 1):
the latch fires exactly once, but the update assigns each counter from the
other side's old value, so the scores are exchanged instead of the
corresponding side being incremented once (which would give (0, 6)).  The
final conjunct shows the latch is cleared again when the ball respawns. -/
theorem part0_c1_score_swap :
    Part0.c1_state.player_score = 0
    ∧ Part0.c1_state.ai_score = 5
    ∧ (Part0.update_score_tick_function^[50] Part0.c1_state).player_score = 5
    ∧ (Part0.update_score_tick_function^[50] Part0.c1_state).ai_score = 1
    ∧ (Part0.update_score_tick_function^[50] Part0.c1_state).meta_state.score_has_updated = true
    ∧ (Part0.move_ball_tick_function zeroMath
        (Part0.update_score_tick_function^[50] Part0.c1_state)).meta_state.score_has_updated
      = false := by
  have hstep : Part0.update_score_tick_function Part0.c1_state = Part0.c1_state_after := by
    simp [Part0.update_score_tick_function, Part0.check_collision_with_both_paddle,
      Part0.ball_collide_with_paddle, Part0.get_paddle_range, Part0.c1_state,
      Part0.c1_state_after, Part0.initialState, Part0.initial_ball_State,
      Part0.initial_meta_state, Part0.initial_player_state, Part0.initial_ai_state,
      Part0.initial_player_paddle_state, Part0.initial_ai_paddle_state,
      Part0.initial_pb_state]
    norm_num
  have hfix : Part0.update_score_tick_function Part0.c1_state_after = Part0.c1_state_after := by
    simp [Part0.update_score_tick_function, Part0.c1_state_after, Part0.c1_state,
      Part0.initialState, Part0.initial_meta_state, Part0.initial_ball_State]
  have hiter : Part0.update_score_tick_function^[50] Part0.c1_state = Part0.c1_state_after := by
    rw [show (50:ℕ) = 49 + 1 from rfl, Function.iterate_succ_apply, hstep,
      Function.iterate_fixed hfix]
  rw [hiter]
  refine ⟨rfl, rfl, rfl, rfl, rfl, ?_⟩
  simp [Part0.move_ball_tick_function, Part0.c1_state_after, Part0.c1_state,
    Part0.initialState, Part0.initial_ball_State]
  norm_num

/-- C3 counterexample: `x_reflect` does not return a vector whose stored
`magnitude` equals the input's `magnitude` — it negates it (on input
magnitude 1 the output magnitude is -1). -/
theorem part0_c3_counterexample :
    ¬ ((Part0.Vector.mk 1 0).x_reflect.magnitude
        = (Part0.Vector.mk 1 0).magnitude) := by
  decide

/-- Helper: the absolute magnitude produced by the `part_000` paddle
deflection is the input absolute magnitude scaled by `|strength| / 2 + 0.9`. -/
theorem part0_abs_paddle_mag (v : Part0.Vector) (st : ℚ) :
    |(v.x_reflect_paddle st).magnitude| = |v.magnitude| * (|st| / 2 + 9/10) := by
  have h : (0:ℚ) ≤ |st| / 2 + 9/10 := by positivity
  simp only [Part0.Vector.x_reflect_paddle, abs_neg, abs_mul, abs_of_nonneg h]

/-- C3 amended: `y_reflect` preserves the stored magnitude exactly,
`x_reflect` preserves its absolute value (the speed), and the paddle
deflection `x_reflect_paddle` scales the absolute magnitude by the factor
`|strength| / 2 + 0.9`, which stays within the documented band [0.9, 1.4]
for strengths in [-1, 1]. -/
theorem part0_c3_amended (v : Part0.Vector) (st : ℚ) (h : |st| ≤ 1) :
    (v.y_reflect).magnitude = v.magnitude
    ∧ |(v.x_reflect).magnitude| = |v.magnitude|
    ∧ (9/10 * |v.magnitude| ≤ |(v.x_reflect_paddle st).magnitude|
       ∧ |(v.x_reflect_paddle st).magnitude| ≤ 14/10 * |v.magnitude|) := by
  have h0 : (0:ℚ) ≤ |v.magnitude| := abs_nonneg _
  have h1 : (0:ℚ) ≤ |st| := abs_nonneg _
  refine ⟨rfl, by simp [Part0.Vector.x_reflect], ?_, ?_⟩
  · rw [part0_abs_paddle_mag]
    nlinarith
  · rw [part0_abs_paddle_mag]
    nlinarith

/-- C3 amended, witness at the concrete vector (2, 1) and strength 1/2. -/
theorem part0_c3_amended_witness :
    ((Part0.Vector.mk 2 1).y_reflect).magnitude = (Part0.Vector.mk 2 1).magnitude
    ∧ |((Part0.Vector.mk 2 1).x_reflect).magnitude| = |(Part0.Vector.mk 2 1).magnitude|
    ∧ (9/10 * |(Part0.Vector.mk 2 1).magnitude|
          ≤ |((Part0.Vector.mk 2 1).x_reflect_paddle (1/2)).magnitude|
       ∧ |((Part0.Vector.mk 2 1).x_reflect_paddle (1/2)).magnitude|
          ≤ 14/10 * |(Part0.Vector.mk 2 1).magnitude|) :=
  part0_c3_amended (Part0.Vector.mk 2 1) (1/2)
    (by rw [abs_of_nonneg (by norm_num : (0:ℚ) ≤ 1/2)]; norm_num)

/-- C10: during live play (started, not ended, not paused) a pointer-click
event with any coordinates leaves the state unchanged: no menu handler
runs. -/
theorem pongts_c10_live_click_ignored (s : PongTs.State) (x y : ℚ)
    (h1 : s.meta_state.has_started = true)
    (h2 : s.meta_state.has_ended = false)
    (h3 : s.meta_state.is_paused = false) :
    PongTs.mouse_click_func s x y = s := by
  simp [PongTs.mouse_click_func, h1, h2, h3]

/-- C10 witness: a click on a menu-button location (300, 370) in a live
state is ignored. -/
theorem pongts_c10_live_click_ignored_witness :
    PongTs.mouse_click_func PongTs.c10_state 300 370 = PongTs.c10_state :=
  pongts_c10_live_click_ignored PongTs.c10_state 300 370 rfl rfl rfl

/-- C7 counterexample: with an active AI `health` power-up and both scores
zero, one application of the power-up effect step drives the player score to
-1, below zero. -/
theorem pongts_c7_counterexample :
    (PongTs.active_power_up_effect_tick Player_type.AI PongTs.c7_state).player_score = -1
    ∧ ¬ (0 ≤ (PongTs.active_power_up_effect_tick Player_type.AI
          PongTs.c7_state).player_score) := by
  have h : (PongTs.active_power_up_effect_tick Player_type.AI
      PongTs.c7_state).player_score = -1 := by
    simp [PongTs.active_power_up_effect_tick, PongTs.pipeFuncs, PongTs.mapFuncs,
      PongTs.health_power_up_function, PongTs.speed_power_up_function,
      PongTs.expand_power_up_function, PongTs.return_power_up_function,
      PongTs.c7_state, PongTs.initialState, PongTs.initial_ai_state,
      PongTs.initial_player_state]
  exact ⟨h, by rw [h]; norm_num⟩

/-- C7 amended: the scoring update of the tick pipeline never decreases
either score, but the `health` power-up effect decrements the opposing
side's score by one on every tick while active, with no lower bound, so
scores can become negative. -/
theorem pongts_c7_amended (s t : PongTs.State) (d : ℚ)
    (h : s.ai_paddle.activated_power_up
      = Option.some ⟨PongTs.power_up_type.health, d⟩) :
    ((PongTs.active_power_up_effect_tick Player_type.AI s).player_score
        = s.player_score - 1)
    ∧ (t.player_score ≤ (PongTs.update_score_tick_function t).player_score
       ∧ t.ai_score ≤ (PongTs.update_score_tick_function t).ai_score) := by
  refine ⟨?_, ?_, ?_⟩
  · simp [PongTs.active_power_up_effect_tick, PongTs.pipeFuncs, PongTs.mapFuncs, h,
      PongTs.health_power_up_function, PongTs.speed_power_up_function,
      PongTs.expand_power_up_function, PongTs.return_power_up_function]
  · simp only [PongTs.update_score_tick_function]
    split_ifs <;> simp
  · simp only [PongTs.update_score_tick_function]
    split_ifs <;> simp

/-- C7 amended, witness at the concrete fixture: the effect step decrements
the player score, the scoring step does not decrease it. -/
theorem pongts_c7_amended_witness :
    ((PongTs.active_power_up_effect_tick Player_type.AI PongTs.c7_state).player_score
        = PongTs.c7_state.player_score - 1)
    ∧ PongTs.c7_state.player_score
        ≤ (PongTs.update_score_tick_function PongTs.c7_state).player_score :=
  ⟨(pongts_c7_amended PongTs.c7_state PongTs.c7_state 600 rfl).1,
   (pongts_c7_amended PongTs.c7_state PongTs.c7_state 600 rfl).2.1⟩

/-- C2 counterexample: with the player paddle at y = 519 moving down at
speed 5 (size 1, band [0, 520]), the positional update is not clamped — the
boundary test uses `y + direction` while the move adds `direction * speed` —
and yields 524, outside the claimed band. -/
theorem pongts_c2_counterexample :
    PongTs.get_new_player_y 1 PongTs.c2_state = 524
    ∧ ¬ (PongTs.get_new_player_y 1 PongTs.c2_state
          ≤ 600 - PongTs.c2_state.player_state.paddle.size * 80) := by
  have hsize : PongTs.c2_state.player_state.paddle.size = 1 := rfl
  have h : PongTs.get_new_player_y 1 PongTs.c2_state = 524 := by
    simp [PongTs.get_new_player_y, PongTs.c2_state, PongTs.initialState,
      PongTs.initial_player_state, PongTs.initial_player_paddle_state]
    norm_num
  refine ⟨h, ?_⟩
  rw [h, hsize]
  norm_num

/-- C2 amended: the player update keeps the paddle within the nominal band
widened by `speed - 1` on each side (the clamp fires only when
`y + direction` crosses a bound, while the move adds `direction * speed`),
and the AI update applies no clamp of its own but never steps past its
target, staying inside the interval spanned by the current position and the
(separately clamped) target. -/
theorem pongts_c2_amended (s : PongTs.State) (d cy ty sp : ℚ)
    (hd : d = -1 ∨ d = 0 ∨ d = 1)
    (hsp : 1 ≤ s.player_state.paddle.speed)
    (hy0 : 0 ≤ s.player_state.paddle.y)
    (hy1 : s.player_state.paddle.y ≤ 600 - s.player_state.paddle.size * 80)
    (hb : 0 ≤ 600 - s.player_state.paddle.size * 80)
    (hsp2 : 0 ≤ sp) :
    (-(s.player_state.paddle.speed - 1) ≤ PongTs.get_new_player_y d s
      ∧ PongTs.get_new_player_y d s
          ≤ 600 - s.player_state.paddle.size * 80
            + (s.player_state.paddle.speed - 1))
    ∧ (min cy ty ≤ PongTs.get_new_ai_y cy ty sp
      ∧ PongTs.get_new_ai_y cy ty sp ≤ max cy ty) := by
  constructor
  · unfold PongTs.get_new_player_y
    rcases hd with rfl | rfl | rfl <;>
      (split_ifs with h1 h2 <;> constructor <;> linarith)
  · unfold PongTs.get_new_ai_y
    split_ifs with h1 h2
    · exact ⟨min_le_left _ _, le_max_left _ _⟩
    · have h3 : sp < ty - cy := by
        have h4 := not_le.mp h1
        rw [abs_of_nonpos (by linarith)] at h4
        linarith
      have h5 := min_le_left cy ty
      have h6 := le_max_right cy ty
      constructor <;> linarith
    · have h3 : sp < cy - ty := by
        have h4 := not_le.mp h1
        rw [abs_of_nonneg (by linarith)] at h4
        linarith
      have h5 := min_le_right cy ty
      have h6 := le_max_left cy ty
      constructor <;> linarith

/-- C2 amended, witness at the initial state (player paddle y = 100, speed
5, size 1, moving down) and a concrete AI step from 0 toward target 100 at
speed 5. -/
theorem pongts_c2_amended_witness :
    (-(PongTs.initialState.player_state.paddle.speed - 1)
        ≤ PongTs.get_new_player_y 1 PongTs.initialState
      ∧ PongTs.get_new_player_y 1 PongTs.initialState
          ≤ 600 - PongTs.initialState.player_state.paddle.size * 80
            + (PongTs.initialState.player_state.paddle.speed - 1))
    ∧ (min 0 100 ≤ PongTs.get_new_ai_y 0 100 5
      ∧ PongTs.get_new_ai_y 0 100 5 ≤ max 0 100) :=
  pongts_c2_amended PongTs.initialState 1 0 100 5
    (Or.inr (Or.inr rfl))
    (by norm_num [PongTs.initialState, PongTs.initial_player_state,
      PongTs.initial_player_paddle_state])
    (by norm_num [PongTs.initialState, PongTs.initial_player_state,
      PongTs.initial_player_paddle_state])
    (by norm_num [PongTs.initialState, PongTs.initial_player_state,
      PongTs.initial_player_paddle_state])
    (by norm_num [PongTs.initialState, PongTs.initial_player_state,
      PongTs.initial_player_paddle_state])
    (by norm_num)

/-- C4: for the `part_000` paddle deflection with signed contact strength:
the exit angle magnitude and the exit speed are monotone in the strength
magnitude, a centre hit (strength 0) exits exactly head-on at 0.9 times the
incoming speed, the exit speed stays within [0.9, 1.4] times the incoming
speed for strengths in [-1, 1] (no collapse, no runaway), and the contact
strength produced by `get_paddle_contact_strength` is the signed normalized
offset, lying in [-1, 1] whenever the ball is within the paddle span. -/
theorem part0_c4_paddle_deflection (v : Part0.Vector) (s1 s2 : ℚ)
    (stt : Part0.State) (p : Player_type)
    (h12 : |s1| ≤ |s2|) (h2 : |s2| ≤ 1) :
    (|(v.x_reflect_paddle s1).angle| ≤ |(v.x_reflect_paddle s2).angle|)
    ∧ (|(v.x_reflect_paddle s1).magnitude| ≤ |(v.x_reflect_paddle s2).magnitude|)
    ∧ ((v.x_reflect_paddle 0).angle = 0
       ∧ |(v.x_reflect_paddle 0).magnitude| = 9/10 * |v.magnitude|)
    ∧ (9/10 * |v.magnitude| ≤ |(v.x_reflect_paddle s2).magnitude|
       ∧ |(v.x_reflect_paddle s2).magnitude| ≤ 14/10 * |v.magnitude|)
    ∧ ((Part0.c4_paddle p stt).y ≤ stt.ball.y →
       stt.ball.y ≤ (Part0.c4_paddle p stt).y + (Part0.c4_paddle p stt).size * 80 →
       0 < (Part0.c4_paddle p stt).size →
       (-1 ≤ Part0.get_paddle_contact_strength p stt
        ∧ Part0.get_paddle_contact_strength p stt ≤ 1)) := by
  have h0 : (0:ℚ) ≤ |v.magnitude| := abs_nonneg _
  have h1 : (0:ℚ) ≤ |s1| := abs_nonneg _
  have h1b : (0:ℚ) ≤ |s2| := abs_nonneg _
  refine ⟨?_, ?_, ⟨?_, ?_⟩, ⟨?_, ?_⟩, ?_⟩
  · simp only [Part0.Vector.x_reflect_paddle, abs_neg]
    exact h12
  · rw [part0_abs_paddle_mag, part0_abs_paddle_mag]
    nlinarith
  · simp [Part0.Vector.x_reflect_paddle]
  · rw [part0_abs_paddle_mag, abs_zero]
    ring_nf
  · rw [part0_abs_paddle_mag]
    nlinarith
  · rw [part0_abs_paddle_mag]
    nlinarith
  · intro hyl hyr hs
    have hpos : 0 < (Part0.c4_paddle p stt).size * 80 / 2 := by linarith
    simp only [Part0.get_paddle_contact_strength, Part0.c4_paddle] at *
    constructor
    · rw [le_div_iff hpos]
      linarith
    · rw [div_le_one hpos]
      linarith

/-- C4 witness: concrete vector (2, 1), strengths 0 and 1/2, and the fixture
state with the ball at y = 150 inside the AI paddle span [100, 180]. -/
theorem part0_c4_paddle_deflection_witness :
    (|((Part0.Vector.mk 2 1).x_reflect_paddle 0).angle|
        ≤ |((Part0.Vector.mk 2 1).x_reflect_paddle (1/2)).angle|)
    ∧ (|((Part0.Vector.mk 2 1).x_reflect_paddle 0).magnitude|
        ≤ |((Part0.Vector.mk 2 1).x_reflect_paddle (1/2)).magnitude|)
    ∧ (((Part0.Vector.mk 2 1).x_reflect_paddle 0).angle = 0
       ∧ |((Part0.Vector.mk 2 1).x_reflect_paddle 0).magnitude|
          = 9/10 * |(Part0.Vector.mk 2 1).magnitude|)
    ∧ (9/10 * |(Part0.Vector.mk 2 1).magnitude|
          ≤ |((Part0.Vector.mk 2 1).x_reflect_paddle (1/2)).magnitude|
       ∧ |((Part0.Vector.mk 2 1).x_reflect_paddle (1/2)).magnitude|
          ≤ 14/10 * |(Part0.Vector.mk 2 1).magnitude|)
    ∧ (-1 ≤ Part0.get_paddle_contact_strength Player_type.AI Part0.c4_state
       ∧ Part0.get_paddle_contact_strength Player_type.AI Part0.c4_state ≤ 1) := by
  have habs1 : |(0:ℚ)| ≤ |(1/2:ℚ)| := by simp
  have habs2 : |(1/2:ℚ)| ≤ 1 := by
    rw [abs_of_nonneg (by norm_num : (0:ℚ) ≤ 1/2)]
    norm_num
  have T := part0_c4_paddle_deflection (Part0.Vector.mk 2 1) 0 (1/2)
    Part0.c4_state Player_type.AI habs1 habs2
  refine ⟨T.1, T.2.1, T.2.2.1, T.2.2.2.1, T.2.2.2.2 ?_ ?_ ?_⟩
  · norm_num [Part0.c4_paddle, Part0.c4_state, Part0.initialState,
      Part0.initial_ai_state, Part0.initial_ai_paddle_state,
      Part0.initial_ball_State]
  · norm_num [Part0.c4_paddle, Part0.c4_state, Part0.initialState,
      Part0.initial_ai_state, Part0.initial_ai_paddle_state,
      Part0.initial_ball_State]
  · norm_num [Part0.c4_paddle, Part0.c4_state, Part0.initialState,
      Part0.initial_ai_state, Part0.initial_ai_paddle_state]

/-- C9: while a `fast_ball` power-up is active for the player, the per-tick
effect multiplies the main ball velocity magnitude by 4 with the angle
unchanged exactly when the remaining duration is still above
`POWERUP_TIME - 1` (that is, only on the activation tick, where it is at its
maximum 600), and leaves the velocity untouched on every later tick of the
activation. -/
theorem part0_c9_fastball (s : Part0.State) (d : ℚ)
    (h : s.player_state.activated_power_up
      = Option.some ⟨Part0.power_up_type.fast_ball, d⟩) :
    (Part0.active_power_up_effect_tick Player_type.CONTROLLED_PLAYER s).ball.velocity
      = if 600 - 1 < d then
          Part0.Vector.mk (s.ball.velocity.magnitude * 4) s.ball.velocity.angle
        else s.ball.velocity := by
  simp [Part0.active_power_up_effect_tick, Part0.pipeFuncs, Part0.mapFuncs, h,
    Part0.fastball_power_up_function, Part0.speed_power_up_function,
    Part0.expand_power_up_function, Part0.return_power_up_function]

/-- C9 witness: at the fixture state (activation tick, duration 600) the
ball velocity magnitude is multiplied by 4 and the angle kept. -/
theorem part0_c9_fastball_witness :
    (Part0.active_power_up_effect_tick Player_type.CONTROLLED_PLAYER
        Part0.c9_state).ball.velocity
      = Part0.Vector.mk (Part0.c9_state.ball.velocity.magnitude * 4)
          Part0.c9_state.ball.velocity.angle := by
  rw [part0_c9_fastball Part0.c9_state 600 rfl]
  norm_num

/-- C5: resolution order of `new_ball_velocity` in `pong.ts`: AI-side paddle
contact is resolved first with `x_reflect_paddle` at the AI contact
strength; otherwise player-side contact with `x_reflect_paddle` at the
player contact strength; with no paddle contact, a designated-ball x within
one ball radius of a vertical wall gives plain `x_reflect`; and only
otherwise is the horizontal-wall `y_reflect` case considered. -/
theorem pongts_c5_contact_order (s : PongTs.State) (bt : Ball_type) :
    (PongTs.ball_collide_with_paddle Player_type.AI s = true →
      PongTs.new_ball_velocity s bt
        = (PongTs.nbv_fields s bt).2.2.2.x_reflect_paddle
            (PongTs.get_paddle_contact_strength Player_type.AI s))
    ∧ (PongTs.ball_collide_with_paddle Player_type.AI s = false →
       PongTs.ball_collide_with_paddle Player_type.CONTROLLED_PLAYER s = true →
      PongTs.new_ball_velocity s bt
        = (PongTs.nbv_fields s bt).2.2.2.x_reflect_paddle
            (PongTs.get_paddle_contact_strength Player_type.CONTROLLED_PLAYER s))
    ∧ (PongTs.ball_collide_with_paddle Player_type.AI s = false →
       PongTs.ball_collide_with_paddle Player_type.CONTROLLED_PLAYER s = false →
       ((PongTs.nbv_fields s bt).2.1 ≤ (PongTs.nbv_fields s bt).2.2.1 * 14
         ∨ 600 - (PongTs.nbv_fields s bt).2.2.1 * 14 ≤ (PongTs.nbv_fields s bt).2.1) →
      PongTs.new_ball_velocity s bt = (PongTs.nbv_fields s bt).2.2.2.x_reflect)
    ∧ (PongTs.ball_collide_with_paddle Player_type.AI s = false →
       PongTs.ball_collide_with_paddle Player_type.CONTROLLED_PLAYER s = false →
       ¬ ((PongTs.nbv_fields s bt).2.1 ≤ (PongTs.nbv_fields s bt).2.2.1 * 14
         ∨ 600 - (PongTs.nbv_fields s bt).2.2.1 * 14 ≤ (PongTs.nbv_fields s bt).2.1) →
       ((PongTs.nbv_fields s bt).1 ≤ (PongTs.nbv_fields s bt).2.2.1 * 14
         ∨ 600 - (PongTs.nbv_fields s bt).2.2.1 * 14 ≤ (PongTs.nbv_fields s bt).1) →
      PongTs.new_ball_velocity s bt = (PongTs.nbv_fields s bt).2.2.2.y_reflect) := by
  refine ⟨?_, ?_, ?_, ?_⟩
  · intro hA
    have hboth : PongTs.check_collision_with_both_paddle s = true := by
      simp [PongTs.check_collision_with_both_paddle, hA]
    simp [PongTs.new_ball_velocity, hboth, hA]
  · intro hA hP
    have hboth : PongTs.check_collision_with_both_paddle s = true := by
      simp [PongTs.check_collision_with_both_paddle, hA, hP]
    simp [PongTs.new_ball_velocity, hboth, hA, hP]
  · intro hA hP hw
    have hboth : PongTs.check_collision_with_both_paddle s = false := by
      simp [PongTs.check_collision_with_both_paddle, hA, hP]
    simp only [PongTs.new_ball_velocity, hboth]
    rw [if_pos (hw.imp_right Or.inl)]
    rw [if_neg (by simp [hA]), if_neg (by simp [hP])]
  · intro hA hP hw hy
    have hboth : PongTs.check_collision_with_both_paddle s = false := by
      simp [PongTs.check_collision_with_both_paddle, hA, hP]
    simp only [PongTs.new_ball_velocity, hboth]
    rw [if_neg, if_pos hy]
    intro hcon
    rcases hcon with h | h | h
    · exact hw (Or.inl h)
    · exact hw (Or.inr h)
    · simp at h

/-- C5 witness: the four resolution cases evaluated at four concrete
states — AI contact, player contact, left-wall contact without paddle
contact, and top-wall contact only. -/
theorem pongts_c5_contact_order_witness :
    PongTs.new_ball_velocity PongTs.c5_stateA Ball_type.main_ball
      = (PongTs.nbv_fields PongTs.c5_stateA Ball_type.main_ball).2.2.2.x_reflect_paddle
          (PongTs.get_paddle_contact_strength Player_type.AI PongTs.c5_stateA)
    ∧ PongTs.new_ball_velocity PongTs.c5_stateP Ball_type.main_ball
      = (PongTs.nbv_fields PongTs.c5_stateP Ball_type.main_ball).2.2.2.x_reflect_paddle
          (PongTs.get_paddle_contact_strength Player_type.CONTROLLED_PLAYER PongTs.c5_stateP)
    ∧ PongTs.new_ball_velocity PongTs.c5_stateW Ball_type.main_ball
      = (PongTs.nbv_fields PongTs.c5_stateW Ball_type.main_ball).2.2.2.x_reflect
    ∧ PongTs.new_ball_velocity PongTs.c5_stateY Ball_type.main_ball
      = (PongTs.nbv_fields PongTs.c5_stateY Ball_type.main_ball).2.2.2.y_reflect := by
  have defsA : PongTs.ball_collide_with_paddle Player_type.AI PongTs.c5_stateA = true := by
    simp [PongTs.ball_collide_with_paddle, PongTs.get_paddle_range, PongTs.c5_stateA,
      PongTs.initialState, PongTs.initial_ai_state, PongTs.initial_ai_paddle_state,
      PongTs.initial_ball_State]
    norm_num
  have defsP1 : PongTs.ball_collide_with_paddle Player_type.AI PongTs.c5_stateP = false := by
    simp [PongTs.ball_collide_with_paddle, PongTs.get_paddle_range, PongTs.c5_stateP,
      PongTs.initialState, PongTs.initial_ai_state, PongTs.initial_ai_paddle_state,
      PongTs.initial_ball_State]
    norm_num
  have defsP2 : PongTs.ball_collide_with_paddle Player_type.CONTROLLED_PLAYER
      PongTs.c5_stateP = true := by
    simp [PongTs.ball_collide_with_paddle, PongTs.get_paddle_range, PongTs.c5_stateP,
      PongTs.initialState, PongTs.initial_player_state, PongTs.initial_player_paddle_state,
      PongTs.initial_ball_State]
    norm_num
  have defsW1 : PongTs.ball_collide_with_paddle Player_type.AI PongTs.c5_stateW = false := by
    simp [PongTs.ball_collide_with_paddle, PongTs.get_paddle_range, PongTs.c5_stateW,
      PongTs.initialState, PongTs.initial_ai_state, PongTs.initial_ai_paddle_state,
      PongTs.initial_ball_State]
    norm_num
  have defsW2 : PongTs.ball_collide_with_paddle Player_type.CONTROLLED_PLAYER
      PongTs.c5_stateW = false := by
    simp [PongTs.ball_collide_with_paddle, PongTs.get_paddle_range, PongTs.c5_stateW,
      PongTs.initialState, PongTs.initial_player_state, PongTs.initial_player_paddle_state,
      PongTs.initial_ball_State]
    norm_num
  have defsY1 : PongTs.ball_collide_with_paddle Player_type.AI PongTs.c5_stateY = false := by
    simp [PongTs.ball_collide_with_paddle, PongTs.get_paddle_range, PongTs.c5_stateY,
      PongTs.initialState, PongTs.initial_ai_state, PongTs.initial_ai_paddle_state,
      PongTs.initial_ball_State]
    norm_num
  have defsY2 : PongTs.ball_collide_with_paddle Player_type.CONTROLLED_PLAYER
      PongTs.c5_stateY = false := by
    simp [PongTs.ball_collide_with_paddle, PongTs.get_paddle_range, PongTs.c5_stateY,
      PongTs.initialState, PongTs.initial_player_state, PongTs.initial_player_paddle_state,
      PongTs.initial_ball_State]
    norm_num
  refine ⟨(pongts_c5_contact_order PongTs.c5_stateA Ball_type.main_ball).1 defsA,
    (pongts_c5_contact_order PongTs.c5_stateP Ball_type.main_ball).2.1 defsP1 defsP2,
    (pongts_c5_contact_order PongTs.c5_stateW Ball_type.main_ball).2.2.1 defsW1 defsW2 ?_,
    (pongts_c5_contact_order PongTs.c5_stateY Ball_type.main_ball).2.2.2 defsY1 defsY2 ?_ ?_⟩
  · norm_num [PongTs.nbv_fields, PongTs.c5_stateW, PongTs.initialState,
      PongTs.initial_ball_State]
  · norm_num [PongTs.nbv_fields, PongTs.c5_stateY, PongTs.initialState,
      PongTs.initial_ball_State]
  · norm_num [PongTs.nbv_fields, PongTs.c5_stateY, PongTs.initialState,
      PongTs.initial_ball_State]

/-- C6: (i) whenever either score has reached 7, the end-of-game check sets
both `is_paused` and `has_ended`; (ii) a tick event on a paused state (as
every post-end state is) leaves the state unchanged; (iii) a pause-toggle
event on an ended state leaves the state unchanged, so it cannot clear
`is_paused`; (iv) a pointer click on a started, ended state either performs
the full reset to the initial state (button 1 of the end menu) or leaves the
state unchanged. -/
theorem pongts_c6_endgame_terminal (M : MathOps) (s : PongTs.State) (x y : ℚ) :
    ((7 ≤ s.player_score ∨ 7 ≤ s.ai_score) →
      (PongTs.check_end_game_tick_function s).meta_state.is_paused = true
      ∧ (PongTs.check_end_game_tick_function s).meta_state.has_ended = true)
    ∧ (s.meta_state.is_paused = true → PongTs.Tick_func M s = s)
    ∧ (s.meta_state.has_ended = true → PongTs.pause_func s = s)
    ∧ (s.meta_state.has_started = true → s.meta_state.has_ended = true →
      PongTs.mouse_click_func s x y
        = if PongTs.button_click_check x y = 1 then PongTs.initialState else s) := by
  refine ⟨?_, ?_, ?_, ?_⟩
  · intro h
    simp [PongTs.check_end_game_tick_function, h]
  · intro h
    simp [PongTs.Tick_func, h]
  · intro h
    simp [PongTs.pause_func, h]
  · intro h1 h2
    simp [PongTs.mouse_click_func, h1, h2, PongTs.end_menu, PongTs.reset_game]

/-- C6 witness: at the concrete ended state (player score 7, started, ended,
paused) the check keeps both flags set, a tick and a pause toggle are
no-ops, and a click at (0, 0) (which hits no button) leaves the state
unchanged. -/
theorem pongts_c6_endgame_terminal_witness :
    ((PongTs.check_end_game_tick_function PongTs.c6_state).meta_state.is_paused = true
      ∧ (PongTs.check_end_game_tick_function PongTs.c6_state).meta_state.has_ended = true)
    ∧ PongTs.Tick_func zeroMath PongTs.c6_state = PongTs.c6_state
    ∧ PongTs.pause_func PongTs.c6_state = PongTs.c6_state
    ∧ PongTs.mouse_click_func PongTs.c6_state 0 0
        = if PongTs.button_click_check 0 0 = 1 then PongTs.initialState
          else PongTs.c6_state := by
  have T := pongts_c6_endgame_terminal zeroMath PongTs.c6_state 0 0
  exact ⟨T.1 (Or.inl (by norm_num [PongTs.c6_state])), T.2.1 rfl, T.2.2.1 rfl,
    T.2.2.2 rfl rfl⟩
